import Mathlib

/-!
Verification of the Vanguard Phase 2 VCA lifecycle and ledger subsystem.

This file gives a shallow embedding of the Python sources
(`scripts/post_ledger.py`, `scripts/enhanced_generate_proof.py`,
`scripts/batch_mint.py`, `scripts/request_confirmation.py`) and proves
properties of the embedded definitions.

Modelling conventions:
* Python floats are modelled as exact rationals (`ℚ`); every float literal in
  the sources is an exact decimal, and all arithmetic the claims touch stays
  within exact decimal values, so no rounding discrepancy is introduced.
* Python `round` (banker's rounding to a number of decimal digits) is
  modelled by `pyRound` below using round-half-to-even.
* JSON documents are modelled by the inductive `Json`; `json.dumps(-,
  sort_keys=True)` (default separators, `ensure_ascii=True`) is modelled by
  `json_dumps_sorted`.
* `hashlib.sha256(-).hexdigest()` is modelled by a full executable SHA-256
  over `ℕ` (`sha256_hex_of_string`).
* Interactive `input()` answers and timestamps are passed as explicit
  arguments; `subprocess` invocations of the external proving toolchain are
  modelled by an oracle environment (`ProvingEnv`) recording whether each
  call succeeds, together with a trace of the calls made.
-/

namespace Vanguard

/-- Round half to even on rationals, the rounding mode of Python `round`. -/
def roundHalfToEven (q : ℚ) : ℤ :=
  let f : ℤ := ⌊q⌋
  if q - f < 1/2 then f
  else if (1:ℚ)/2 < q - f then f + 1
  else if f % 2 = 0 then f else f + 1

/-- Model of Python `round(x, n)`: round to `n` decimal digits, half to even. -/
def pyRound (q : ℚ) (n : ℕ) : ℚ :=
  (roundHalfToEven (q * 10 ^ n) : ℚ) / 10 ^ n

/-- Decimal digit to its ASCII character. -/
def dec_digit_char (d : ℕ) : Char := Char.ofNat (48 + d)

/-- ASCII character back to its digit value. -/
def char_val (c : Char) : ℕ := c.toNat - 48

/-- Decimal representation of a natural number, most significant digit first
(empty for 0, as `Nat.digits`); used to model Python integer formatting. -/
def dec_repr (n : ℕ) : List Char := ((Nat.digits 10 n).map dec_digit_char).reverse

/-- Zero-pad a decimal representation to width 6, the `"%06d"`/`{n:06d}`
format directive used for transaction ids. -/
def pad6_chars (n : ℕ) : List Char :=
  List.replicate (6 - (dec_repr n).length) '0' ++ dec_repr n

/-- Transaction id string for counter value `n`: `f"tx-\x7btx_number:06d\x7d"`. -/
def txFormat (n : ℕ) : String := "tx-" ++ String.mk (pad6_chars n)

/-- Decode a big-endian list of ASCII digits back to a natural number
(helper used to reason about transaction-id ordering). -/
def decode_digits (cs : List Char) : ℕ := Nat.ofDigits 10 ((cs.map char_val).reverse)

/-- Hexadecimal digit character (lowercase), as produced by `hexdigest`. -/
def hex_digit (d : ℕ) : Char := if d < 10 then Char.ofNat (48 + d) else Char.ofNat (87 + d)

/-- Four-digit hexadecimal rendering, for `\uXXXX` escapes. -/
def hex4 (n : ℕ) : List Char :=
  [hex_digit (n / 4096 % 16), hex_digit (n / 256 % 16), hex_digit (n / 16 % 16), hex_digit (n % 16)]

/-- JSON documents as manipulated by the scripts. Numbers are restricted to
integers: the snarkjs proof artifacts hashed by `compute_proof_hash` contain
only strings, arrays and objects. -/
inductive Json where
  | null
  | bool (b : Bool)
  | num (n : ℤ)
  | str (s : String)
  | arr (xs : List Json)
  | obj (kvs : List (String × Json))

/-- Escaping of one character by `json.dumps` with `ensure_ascii=True`. -/
def escape_char (c : Char) : List Char :=
  if c = '"' then ['\\', '"']
  else if c = '\\' then ['\\', '\\']
  else if c = '\n' then ['\\', 'n']
  else if c = '\r' then ['\\', 'r']
  else if c = '\t' then ['\\', 't']
  else if c.toNat = 8 then ['\\', 'b']
  else if c.toNat = 12 then ['\\', 'f']
  else if 32 ≤ c.toNat ∧ c.toNat ≤ 126 then [c]
  else if c.toNat < 65536 then '\\' :: 'u' :: hex4 c.toNat
  else
    ('\\' :: 'u' :: hex4 (55296 + (c.toNat - 65536) / 1024)) ++
      ('\\' :: 'u' :: hex4 (56320 + (c.toNat - 65536) % 1024))

/-- Render a JSON string literal with escapes. -/
def render_str (s : String) : String :=
  String.mk ('"' :: s.data.foldr (fun c acc => escape_char c ++ acc) ['"'])

/-- Insert a rendered key/value pair into a key-sorted list (stable). -/
def insert_by_key (p : String × String) : List (String × String) → List (String × String)
  | [] => [p]
  | q :: qs => if p.1 ≤ q.1 then p :: q :: qs else q :: insert_by_key p qs

/-- Insertion sort of rendered key/value pairs by key (`sort_keys=True`
sorts object keys by Unicode code point, which is `String` order). -/
def sort_by_key (l : List (String × String)) : List (String × String) :=
  l.foldr insert_by_key []

mutual

/-- Model of `json.dumps(x, sort_keys=True)` with the default separators
`(", ", ": ")` and `ensure_ascii=True`. -/
def json_dumps_sorted : Json → String
  | .null => "null"
  | .bool true => "true"
  | .bool false => "false"
  | .num n => toString n
  | .str s => render_str s
  | .arr xs => "[" ++ String.intercalate ", " (dumps_list xs) ++ "]"
  | .obj kvs =>
      "\x7b" ++ String.intercalate ", " ((sort_by_key (dumps_obj kvs)).map (fun p => p.2)) ++ "\x7d"

/-- Render each array element. -/
def dumps_list : List Json → List String
  | [] => []
  | x :: xs => json_dumps_sorted x :: dumps_list xs

/-- Render each object member as (key, `"key": value`). -/
def dumps_obj : List (String × Json) → List (String × String)
  | [] => []
  | (k, v) :: xs => (k, render_str k ++ ": " ++ json_dumps_sorted v) :: dumps_obj xs

end

/-! SHA-256 (FIPS 180-4), executable over `ℕ` with explicit reduction
modulo `2 ^ 32`; models `hashlib.sha256(data).hexdigest()`. -/

/-- Reduce modulo `2 ^ 32`. -/
def w32 (n : ℕ) : ℕ := n % 4294967296

/-- Right rotation of a 32-bit word. -/
def rotr32 (x k : ℕ) : ℕ := x / 2 ^ k + x % 2 ^ k * 2 ^ (32 - k)

/-- Bitwise complement of a 32-bit word. -/
def not32 (x : ℕ) : ℕ := 4294967295 - x

/-- SHA-256 Σ₀. -/
def big_sigma0 (x : ℕ) : ℕ := Nat.xor (rotr32 x 2) (Nat.xor (rotr32 x 13) (rotr32 x 22))

/-- SHA-256 Σ₁. -/
def big_sigma1 (x : ℕ) : ℕ := Nat.xor (rotr32 x 6) (Nat.xor (rotr32 x 11) (rotr32 x 25))

/-- SHA-256 σ₀. -/
def small_sigma0 (x : ℕ) : ℕ := Nat.xor (rotr32 x 7) (Nat.xor (rotr32 x 18) (x / 2 ^ 3))

/-- SHA-256 σ₁. -/
def small_sigma1 (x : ℕ) : ℕ := Nat.xor (rotr32 x 17) (Nat.xor (rotr32 x 19) (x / 2 ^ 10))

/-- SHA-256 Ch. -/
def ch_val (x y z : ℕ) : ℕ := Nat.xor (Nat.land x y) (Nat.land (not32 x) z)

/-- SHA-256 Maj. -/
def maj_val (x y z : ℕ) : ℕ := Nat.xor (Nat.land x y) (Nat.xor (Nat.land x z) (Nat.land y z))

/-- The 64 SHA-256 round constants (FIPS 180-4 section 4.2.2, written in
decimal). -/
def sha_k : List ℕ :=
  [1116352408, 1899447441, 3049323471, 3921009573, 961987163, 1508970993,
   2453635748, 2870763221, 3624381080, 310598401, 607225278, 1426881987,
   1925078388, 2162078206, 2614888103, 3248222580, 3835390401, 4022224774,
   264347078, 604807628, 770255983, 1249150122, 1555081692, 1996064986,
   2554220882, 2821834349, 2952996808, 3210313671, 3336571891, 3584528711,
   113926993, 338241895, 666307205, 773529912, 1294757372, 1396182291,
   1695183700, 1986661051, 2177026350, 2456956037, 2730485921, 2820302411,
   3259730800, 3345764771, 3516065817, 3600352804, 4094571909, 275423344,
   430227734, 506948616, 659060556, 883997877, 958139571, 1322822218,
   1537002063, 1747873779, 1955562222, 2024104815, 2227730452, 2361852424,
   2428436474, 2756734187, 3204031479, 3329325298]

/-- Working state of the compression function. -/
structure Hash8 where
  a : ℕ
  b : ℕ
  c : ℕ
  d : ℕ
  e : ℕ
  f : ℕ
  g : ℕ
  h : ℕ

/-- The SHA-256 initial hash value (FIPS 180-4 section 5.3.3, decimal). -/
def sha_h0 : Hash8 :=
  ⟨1779033703, 3144134277, 1013904242, 2773480762,
   1359893119, 2600822924, 528734635, 1541459225⟩

/-- Extend the 16 block words by one scheduled word. -/
def sched_step (w : List ℕ) : List ℕ :=
  let n := w.length
  w ++ [w32 (small_sigma1 (w.getD (n-2) 0) + w.getD (n-7) 0 +
             small_sigma0 (w.getD (n-15) 0) + w.getD (n-16) 0)]

/-- The full 64-word message schedule of one block. -/
def extend_schedule (w : List ℕ) : List ℕ :=
  (List.range 48).foldl (fun acc _ => sched_step acc) w

/-- One compression round, consuming a scheduled word and its constant. -/
def round_step (st : Hash8) (wk : ℕ × ℕ) : Hash8 :=
  let t1 := w32 (st.h + big_sigma1 st.e + ch_val st.e st.f st.g + wk.2 + wk.1)
  let t2 := w32 (big_sigma0 st.a + maj_val st.a st.b st.c)
  ⟨w32 (t1 + t2), st.a, st.b, st.c, w32 (st.d + t1), st.e, st.f, st.g⟩

/-- Compress one 16-word block into the running hash value. -/
def compress_block (h : Hash8) (blockWords : List ℕ) : Hash8 :=
  let st := ((extend_schedule blockWords).zip sha_k).foldl round_step h
  ⟨w32 (h.a + st.a), w32 (h.b + st.b), w32 (h.c + st.c), w32 (h.d + st.d),
   w32 (h.e + st.e), w32 (h.f + st.f), w32 (h.g + st.g), w32 (h.h + st.h)⟩

/-- Big-endian byte rendering of `n` in `k` bytes. -/
def be_bytes (k n : ℕ) : List ℕ := (List.range k).map (fun i => n / 2 ^ (8 * (k - 1 - i)) % 256)

/-- SHA-256 padding: `0x80`, zeros to 56 mod 64, then the 64-bit bit length. -/
def pad_message (msg : List ℕ) : List ℕ :=
  msg ++ 128 :: List.replicate ((119 - msg.length % 64) % 64) 0 ++ be_bytes 8 (8 * msg.length)

/-- Big-endian 32-bit word from a list of bytes. -/
def word_of_bytes (bs : List ℕ) : ℕ := bs.foldl (fun acc b => acc * 256 + b) 0

/-- The 16 words of block number `blk` of a padded message. -/
def block_words (msg : List ℕ) (blk : ℕ) : List ℕ :=
  (List.range 16).map (fun i => word_of_bytes ((msg.drop (64 * blk + 4 * i)).take 4))

/-- SHA-256 digest of a byte list, as eight 32-bit words. -/
def sha256_digest (msg : List ℕ) : List ℕ :=
  let p := pad_message msg
  let fin := (List.range (p.length / 64)).foldl (fun h b => compress_block h (block_words p b)) sha_h0
  [fin.a, fin.b, fin.c, fin.d, fin.e, fin.f, fin.g, fin.h]

/-- Lowercase hexadecimal rendering of a 32-bit word. -/
def hex8 (w : ℕ) : List Char := (List.range 8).map (fun i => hex_digit (w / 16 ^ (7 - i) % 16))

/-- Hex digest string of a byte list, as `hexdigest()` returns it. -/
def sha256_hex (msg : List ℕ) : String :=
  String.mk ((sha256_digest msg).foldr (fun w acc => hex8 w ++ acc) [])

/-- Byte encoding of the (pure-ASCII) strings the scripts hash. The output
of `json_dumps_sorted` is pure ASCII (`ensure_ascii=True` escapes all
non-ASCII characters), so the UTF-8 encoding applied by Python `.encode()`
is the identity on code points. -/
def str_bytes (s : String) : List ℕ := s.data.map Char.toNat

/-- Model of `hashlib.sha256(s.encode()).hexdigest()`. -/
def sha256_hex_of_string (s : String) : String := sha256_hex (str_bytes s)

/-! Data model: VCA records and ledger entries, following the JSON documents
the scripts read and write. Keys a script may find missing (and reads with
`.get` and a default, or whose absence the claims are about) are `Option`s. -/

/-- The `cognitive_state` mapping of a VCA. The scripts access its metrics
only through `.get` with defaults (or membership tests), so a missing
`cognitive_state` dict behaves exactly like the all-`none` record. -/
structure CognitiveState where
  confidence : Option ℚ
  threshold : Option ℚ
  fatigue : Option ℚ
  focus : Option ℚ
  urgency : Option ℚ
deriving DecidableEq

/-- The `consent` record attached by `request_confirmation.py`. -/
structure ConsentRecord where
  haptic_delivered : Bool
  user_response : String
  timestamp : String
deriving DecidableEq

/-- The `zkp` record attached by `enhanced_generate_proof.py`.
`post_ledger.py` reads its keys defensively with `.get` defaults, hence the
`Option` fields. -/
structure ZkpRecord where
  ztype : Option String
  circuit : Option String
  proof : Option Json
  public_signals : Option Json
  verified : Option Bool
  verified_at : Option String

/-- A VCA record (one `proofs/vca-*.json` document). -/
structure VCA where
  vca_id : String
  timestamp : String
  intent : String
  task_data : String
  cognitive_state : CognitiveState
  zkp : Option ZkpRecord
  consent : Option ConsentRecord

/-- One entry of `ledger.json`. `vgt_reward` is absent at creation and set
by `post_to_ledger` just before appending. -/
structure LedgerEntry where
  tx_id : String
  timestamp : String
  action : String
  vca_id : String
  intent : String
  proof_hash : String
  human_consent : String
  status : String
  cognitive_state : CognitiveState
  meta_proof_type : String
  meta_verified : Bool
  meta_consent_timestamp : String
  vgt_reward : Option ℤ

/-! Embedding of `scripts/post_ledger.py`. File I/O (`load_vca`,
`load_ledger`, `save_ledger`) is replaced by explicit arguments and results:
the lookup result is an `Option VCA`, the ledger a `List LedgerEntry`, and
the outcome records whether the ledger file was rewritten. -/

/-- Model of `compute_proof_hash`: canonicalize `vca['zkp']['proof']`
(defaulting to the empty object at each missing key) and hash it. -/
def compute_proof_hash (vca : VCA) : String :=
  let proof_data := match vca.zkp with
    | none => Json.obj []
    | some z => z.proof.getD (Json.obj [])
  sha256_hex_of_string (json_dumps_sorted proof_data)

/-- Model of `generate_tx_id`: the ledger length plus one, formatted. -/
def generate_tx_id (ledger : List LedgerEntry) : String := txFormat (ledger.length + 1)

/-- Model of `create_ledger_entry`. -/
def create_ledger_entry (vca : VCA) (tx_id : String) (now : String) : LedgerEntry :=
  let user_response := (vca.consent.map (fun c => c.user_response)).getD "unknown"
  let action_status : String × String :=
    if user_response = "y" then ("execute", "executed")
    else if user_response = "n" then ("veto", "vetoed")
    else ("unknown", "pending")
  { tx_id := tx_id
    timestamp := now
    action := action_status.1
    vca_id := vca.vca_id
    intent := vca.intent
    proof_hash := compute_proof_hash vca
    human_consent := user_response
    status := action_status.2
    cognitive_state := vca.cognitive_state
    meta_proof_type := ((vca.zkp.bind (fun z => z.ztype)).getD "unknown")
    meta_verified := ((vca.zkp.bind (fun z => z.verified)).getD false)
    meta_consent_timestamp := (vca.consent.map (fun c => c.timestamp)).getD "unknown"
    vgt_reward := none }

/-- Model of `check_duplicate`: does any entry reference this VCA id. -/
def check_duplicate (ledger : List LedgerEntry) (vca_id : String) : Bool :=
  ledger.any (fun e => e.vca_id == vca_id)

/-- Model of `calculate_vgt_reward`. -/
def calculate_vgt_reward (entry : LedgerEntry) : ℤ :=
  if entry.status = "executed" then
    let confidence := entry.cognitive_state.confidence.getD 0
    if 95 ≤ confidence then 10
    else if 90 ≤ confidence then 5
    else 3
  else 0

/-- Python `.strip()` whitespace predicate (the characters relevant here). -/
def is_space (c : Char) : Bool := c == ' ' || c == '\t' || c == '\n' || c == '\r'

/-- Model of Python `.strip()`. -/
def py_strip (s : String) : String :=
  String.mk (((s.data.dropWhile is_space).reverse.dropWhile is_space).reverse)

/-- Lowercase one ASCII character. -/
def lower_char (c : Char) : Char :=
  if 65 ≤ c.toNat ∧ c.toNat ≤ 90 then Char.ofNat (c.toNat + 32) else c

/-- Model of Python `.lower()`. -/
def py_lower (s : String) : String := String.mk (s.data.map lower_char)

/-- The `response.strip().lower() in ["y", "yes"]` test of the duplicate
override prompt in `post_to_ledger`. -/
def answered_yes (s : String) : Bool :=
  py_lower (py_strip s) == "y" || py_lower (py_strip s) == "yes"

/-- The distinct ways `post_to_ledger` can finish. -/
inductive PostResult where
  | notFound
  | missingConsent
  | cancelledDuplicate
  | posted (entry : LedgerEntry)

/-- Result of one `post_to_ledger` run: how it finished, the resulting
ledger, and whether `save_ledger` rewrote the ledger file. -/
structure PostOutcome where
  result : PostResult
  ledger : List LedgerEntry
  saved : Bool

/-- Process exit code of `post_to_ledger` (the duplicate-cancel path prints
`Cancelled.` and returns 0). -/
def post_exit_code : PostResult → ℕ
  | .notFound => 1
  | .missingConsent => 1
  | .cancelledDuplicate => 0
  | .posted _ => 0

/-- Model of `post_to_ledger`: `vcaLookup` is what `load_vca` found,
`ledger` is the parsed `ledger.json`, `dupResponse` the operator's answer to
the duplicate-override prompt (consulted only when a duplicate exists), and
`now` the timestamp. -/
def post_to_ledger (vcaLookup : Option VCA) (ledger : List LedgerEntry)
    (dupResponse : String) (now : String) : PostOutcome :=
  match vcaLookup with
  | none => ⟨.notFound, ledger, false⟩
  | some vca =>
    match vca.consent with
    | none => ⟨.missingConsent, ledger, false⟩
    | some _ =>
      if check_duplicate ledger vca.vca_id && !answered_yes dupResponse then
        ⟨.cancelledDuplicate, ledger, false⟩
      else
        let tx_id := generate_tx_id ledger
        let entry0 := create_ledger_entry vca tx_id now
        let entry := { entry0 with vgt_reward := some (calculate_vgt_reward entry0) }
        ⟨.posted entry, ledger ++ [entry], true⟩

/-! Embedding of `scripts/request_confirmation.py` (the consent state
machine; display and haptic simulation are plumbing). -/

/-- Model of one iteration of `get_consent`: `'y'` for an approve answer,
`'n'` for a veto answer, `none` when the loop re-prompts. -/
def get_consent_step (raw : String) : Option String :=
  let r := py_lower (py_strip raw)
  if r == "y" || r == "yes" then some "y"
  else if r == "n" || r == "no" then some "n"
  else none

/-- Model of `update_vca_with_consent`: attach (or silently replace) the
consent record and persist the VCA. -/
def update_vca_with_consent (vca : VCA) (response : String) (now : String) : VCA :=
  { vca with consent := some ⟨true, response, now⟩ }

/-! Embedding of `scripts/enhanced_generate_proof.py`. The external snarkjs
toolchain and the filesystem are modelled by an oracle environment: whether
each required artifact exists, whether each subprocess succeeds, whether the
verifier's stdout contains `"OK"`, and the data the toolchain returns. The
model records the trace of external proving calls actually issued. -/

/-- Oracle environment for one `generate_real_proof` run. -/
structure ProvingEnv where
  witness_gen_js_exists : Bool
  zkey_exists : Bool
  vkey_exists : Bool
  witness_cmd_ok : Bool
  prove_cmd_ok : Bool
  verify_cmd_ok : Bool
  verify_output_has_ok : Bool
  proof_data : Json
  public_data : Json
  proof_id : String
  vca_uuid : String
  now : String

/-- One external proving-toolchain invocation (a `run_command` call). -/
inductive ExtCall where
  | witnessGen (confidence_fixed threshold_fixed : ℤ)
  | proveCall
  | verifyCall
deriving DecidableEq

/-- The exceptions `generate_real_proof` can raise: `FileNotFoundError`
for a missing artifact, `RuntimeError("Command failed: ...")` from
`run_command`, and `RuntimeError("Proof verification failed")` — the
error the spec's taxonomy calls `InvalidProof`. -/
inductive GenError where
  | fileNotFound (what : String)
  | commandFailed (what : String)
  | invalidProof
deriving DecidableEq

/-- Result of a `generate_real_proof` run: the returned VCA or the raised
error, the trace of external proving calls, and the VCA files written
(`create_vca` is the only place a VCA record is persisted). -/
structure GenOutcome where
  result : Except GenError VCA
  calls : List ExtCall
  persisted : List VCA

/-- Model of `create_vca`: build the VCA record (with `verified: True`) and
persist it under its fresh id. -/
def create_vca (env : ProvingEnv) (confidence threshold : ℚ)
    (intent task_data : String) : VCA :=
  { vca_id := "vca-" ++ env.vca_uuid
    timestamp := env.now
    intent := intent
    task_data := task_data
    cognitive_state :=
      { confidence := some confidence, threshold := some threshold,
        fatigue := none, focus := none, urgency := none }
    zkp := some
      { ztype := some "groth16", circuit := some "intent_threshold",
        proof := some env.proof_data, public_signals := some env.public_data,
        verified := some true, verified_at := some env.now }
    consent := none }

/-- Model of `generate_real_proof`: fixed-point conversion, witness
generation, proof generation, verification (whose failure — a failed
command is caught and reported as `False` — raises the hard error), then
`create_vca`. Each step's file-existence check precedes its external call. -/
def generate_real_proof (env : ProvingEnv) (confidence_percent threshold_percent : ℚ)
    (intent task_data : String) : GenOutcome :=
  let cf : ℤ := roundHalfToEven (confidence_percent * 100)
  let tf : ℤ := roundHalfToEven (threshold_percent * 100)
  if !env.witness_gen_js_exists then
    ⟨.error (.fileNotFound "witness generator"), [], []⟩
  else if !env.witness_cmd_ok then
    ⟨.error (.commandFailed "witness generation"), [.witnessGen cf tf], []⟩
  else if !env.zkey_exists then
    ⟨.error (.fileNotFound "proving key"), [.witnessGen cf tf], []⟩
  else if !env.prove_cmd_ok then
    ⟨.error (.commandFailed "proof generation"), [.witnessGen cf tf, .proveCall], []⟩
  else if !env.vkey_exists then
    ⟨.error (.fileNotFound "verification key"), [.witnessGen cf tf, .proveCall], []⟩
  else
    let is_valid := env.verify_cmd_ok && env.verify_output_has_ok
    if !is_valid then
      ⟨.error .invalidProof, [.witnessGen cf tf, .proveCall, .verifyCall], []⟩
    else
      let vca := create_vca env confidence_percent threshold_percent intent task_data
      ⟨.ok vca, [.witnessGen cf tf, .proveCall, .verifyCall], [vca]⟩

/-- The errors the `enhanced_generate_proof.py` CLI can report. -/
inductive MainError where
  | invalidRangeConfidence
  | invalidRangeThreshold
  | genFailure (e : GenError)

/-- Result of the `enhanced_generate_proof.py` CLI: outcome, trace of
external proving calls, and process exit code. -/
structure CliOutcome where
  result : Except MainError VCA
  calls : List ExtCall
  code : ℕ

/-- Model of `main` in `enhanced_generate_proof.py`: range validation of
confidence and threshold (printing the error and exiting 1) happens before
`generate_real_proof` is invoked. -/
def enhanced_main (env : ProvingEnv) (confidence threshold : ℚ)
    (intent task_data : String) : CliOutcome :=
  if ¬(0 ≤ confidence ∧ confidence ≤ 100) then
    ⟨.error .invalidRangeConfidence, [], 1⟩
  else if ¬(0 ≤ threshold ∧ threshold ≤ 100) then
    ⟨.error .invalidRangeThreshold, [], 1⟩
  else
    let out := generate_real_proof env confidence threshold intent task_data
    match out.result with
    | .ok vca => ⟨.ok vca, out.calls, 0⟩
    | .error e => ⟨.error (.genFailure e), out.calls, 1⟩

/-! Embedding of `scripts/batch_mint.py`. -/

/-- The fixed sample intents of `generate_batch_intents`. -/
def batch_intents : List (String × String) :=
  [("Approve email to team", "Send project update email"),
   ("Schedule standup meeting", "Book 15min daily sync"),
   ("Review pull request", "Code review for feature X"),
   ("Update documentation", "Add API examples to README"),
   ("Respond to Slack message", "Answer technical question"),
   ("Create calendar event", "Block focus time tomorrow"),
   ("Archive completed tasks", "Clean up task board"),
   ("Send meeting notes", "Distribute notes from planning session"),
   ("Update project timeline", "Adjust milestones in tracker"),
   ("Approve expense report", "Sign off on team lunch expense")]

/-- Model of `generate_batch_intents`: cycle through the sample intents. -/
def generate_batch_intents (count : ℕ) : List (String × String) :=
  (List.range count).map (fun i => batch_intents.getD (i % batch_intents.length) ("", ""))

/-- Model of `batch_mint`: generate `count` VCAs with confidences
`base_confidence + i * 0.1`, collecting the successes (a failed generation
is caught and skipped) and the concatenated trace of external calls.
`envs i` is the oracle environment of the `i`-th generation. Note the
absence of any range validation of `base_confidence` or `threshold`. -/
def batch_mint (envs : ℕ → ProvingEnv) (count : ℕ)
    (base_confidence : ℚ) (threshold : ℚ) : List VCA × List ExtCall :=
  (List.range count).foldl
    (fun acc (i : ℕ) =>
      let confidence := base_confidence + (i : ℚ) * (1/10)
      let intent_task := (generate_batch_intents count).getD i ("", "")
      let out := generate_real_proof (envs i) confidence threshold intent_task.1 intent_task.2
      match out.result with
      | .ok vca => (acc.1 ++ [vca], acc.2 ++ out.calls)
      | .error _ => (acc.1, acc.2 ++ out.calls))
    ([], [])

/-- A batch rollup entry (one `proofs/batch-*.json` document; `batch_mint`
writes it to the proofs directory, not to `ledger.json`). -/
structure RollupEntry where
  batch_id : String
  tx_id : String
  timestamp : String
  action : String
  vca_count : ℕ
  vca_ids : List String
  total_confidence_avg : ℚ
  status : String
  meta_individual_proofs : Bool
  meta_gas_savings_vs_individual : String
  meta_vgt_amortized : Bool

/-- The constituent confidences accessed by direct subscripting
`vca['cognitive_state']['confidence']` inside `create_rollup_entry`'s sum;
a missing confidence raises `KeyError`, which is `none` here. -/
def confidences_of : List VCA → Option (List ℚ)
  | [] => some []
  | v :: vs =>
    match v.cognitive_state.confidence, confidences_of vs with
    | some c, some cs => some (c :: cs)
    | _, _ => none

/-- Model of `create_rollup_entry`. Direct subscripting
`vca['cognitive_state']['confidence']` raises `KeyError` on a missing
confidence, and an empty batch raises `ZeroDivisionError`; both are `none`. -/
def create_rollup_entry (vcas : List VCA) (batch_id : String) (now : String) :
    Option RollupEntry :=
  match confidences_of vcas with
  | none => none
  | some confs =>
    if vcas.length = 0 then none
    else some
      { batch_id := batch_id
        tx_id := "rollup-" ++ batch_id
        timestamp := now
        action := "batch_rollup"
        vca_count := vcas.length
        vca_ids := vcas.map (fun v => v.vca_id)
        total_confidence_avg := pyRound (confs.sum / vcas.length) 2
        status := "pending_confirmation"
        meta_individual_proofs := true
        meta_gas_savings_vs_individual := "87%"
        meta_vgt_amortized := true }

/-- The gas figures returned by `simulate_gas_savings`. -/
structure GasReport where
  individual_cost : ℤ
  batch_cost : ℤ
  savings : ℤ
  savings_percent : ℚ
deriving DecidableEq

/-- Model of `simulate_gas_savings` (an empty batch divides by zero). -/
def simulate_gas_savings (vca_count : ℕ) : Option GasReport :=
  let individual_gas : ℤ := 150000
  let batch_overhead : ℤ := 50000
  let per_item_gas : ℤ := 20000
  let individual_total := individual_gas * vca_count
  let batch_total := batch_overhead + per_item_gas * vca_count
  let savings := individual_total - batch_total
  if vca_count = 0 then none
  else some
    { individual_cost := individual_total
      batch_cost := batch_total
      savings := savings
      savings_percent := pyRound ((savings : ℚ) / (individual_total : ℚ) * 100) 1 }

/-! Serialized ledger mutation (§5 of the spec): the operations the scripts
perform against `ledger.json`, applied one at a time. An individual post is
`post_to_ledger`; a batch mint writes its rollup entry to a separate keyed
file in the proofs directory and never touches `ledger.json`. -/

/-- One serialized operation against the ledger store. -/
inductive LedgerOp where
  | post (vcaLookup : Option VCA) (dupResponse : String) (now : String)
  | batchRollup (vcas : List VCA) (batch_id : String) (now : String)

/-- The effect of one operation on `ledger.json`. -/
def apply_ledger_op (ledger : List LedgerEntry) : LedgerOp → List LedgerEntry
  | .post vcaLookup dupResponse now => (post_to_ledger vcaLookup ledger dupResponse now).ledger
  | .batchRollup _ _ _ => ledger

/-- The ledger produced by a serialized sequence of operations, starting
from the empty ledger. -/
def run_ledger_ops (ops : List LedgerOp) : List LedgerEntry :=
  ops.foldl apply_ledger_op []

/-- The numeric counter value of an entry's transaction id (strip the
`"tx-"` head and decode the decimal digits). -/
def tx_number (e : LedgerEntry) : ℕ := decode_digits (e.tx_id.data.drop 3)

/-- The transaction-id discipline: entry `i` (zero-based) carries the
formatted counter value `i + 1`. -/
def tx_invariant (L : List LedgerEntry) : Prop :=
  ∀ i (hi : i < L.length), (L.get ⟨i, hi⟩).tx_id = txFormat (i + 1)

/-! Concrete sample data used to instantiate the theorems. -/

/-- A consented (approved), high-confidence VCA without an embedded proof
object. -/
def sample_vca_a : VCA :=
  { vca_id := "vca-aaaaaaaa", timestamp := "2026-01-01T00:00:00Z",
    intent := "Approve email to team", task_data := "",
    cognitive_state := ⟨some 96, some 92, none, none, none⟩,
    zkp := none, consent := some ⟨true, "y", "2026-01-01T01:00:00Z"⟩ }

/-- A consented (vetoed) VCA. -/
def sample_vca_b : VCA :=
  { vca_id := "vca-bbbbbbbb", timestamp := "2026-01-01T00:00:00Z",
    intent := "Review pull request", task_data := "",
    cognitive_state := ⟨some 93, some 92, none, none, none⟩,
    zkp := none, consent := some ⟨true, "n", "2026-01-01T01:00:00Z"⟩ }

/-- A VCA with no consent record. -/
def sample_vca_unconfirmed : VCA :=
  { vca_id := "vca-cccccccc", timestamp := "2026-01-01T00:00:00Z",
    intent := "Schedule standup meeting", task_data := "",
    cognitive_state := ⟨some 94, some 92, none, none, none⟩,
    zkp := none, consent := none }

/-- A VCA carrying a corrupt consent value (neither `y` nor `n`). -/
def sample_vca_corrupt : VCA :=
  { vca_id := "vca-dddddddd", timestamp := "2026-01-01T00:00:00Z",
    intent := "Update documentation", task_data := "",
    cognitive_state := ⟨some 91, some 90, none, none, none⟩,
    zkp := none, consent := some ⟨true, "maybe", "2026-01-01T01:00:00Z"⟩ }

/-- An approved VCA whose cognitive-state snapshot lacks a confidence key. -/
def sample_vca_noconf : VCA :=
  { vca_id := "vca-eeeeeeee", timestamp := "2026-01-01T00:00:00Z",
    intent := "Archive completed tasks", task_data := "",
    cognitive_state := ⟨none, none, none, none, none⟩,
    zkp := none, consent := some ⟨true, "y", "2026-01-01T01:00:00Z"⟩ }

/-- Two serialized individual posts. -/
def sample_ops : List LedgerOp :=
  [.post (some sample_vca_a) "" "2026-01-01T02:00:00Z",
   .post (some sample_vca_b) "" "2026-01-01T03:00:00Z"]

/-- A ledger that already references `sample_vca_a`. -/
def sample_dup_ledger : List LedgerEntry :=
  (post_to_ledger (some sample_vca_a) [] "" "2026-01-01T02:00:00Z").ledger

/-- A ledger entry for an approved execution at confidence 96. -/
def sample_entry_exec : LedgerEntry :=
  create_ledger_entry sample_vca_a "tx-000001" "2026-01-01T02:00:00Z"

/-- A ledger entry for a vetoed action. -/
def sample_entry_veto : LedgerEntry :=
  create_ledger_entry sample_vca_b "tx-000002" "2026-01-01T03:00:00Z"

/-- An executed ledger entry without a confidence value in its snapshot. -/
def sample_entry_noconf : LedgerEntry :=
  create_ledger_entry sample_vca_noconf "tx-000001" "2026-01-01T02:00:00Z"

/-- An oracle environment where every toolchain step succeeds. -/
def good_env : ProvingEnv :=
  { witness_gen_js_exists := true, zkey_exists := true, vkey_exists := true,
    witness_cmd_ok := true, prove_cmd_ok := true, verify_cmd_ok := true,
    verify_output_has_ok := true, proof_data := Json.obj [], public_data := Json.arr [],
    proof_id := "cafebabe", vca_uuid := "00000001", now := "2026-01-01T00:00:00Z" }

/-- An environment whose verifier runs but does not report `OK`. -/
def bad_verify_env : ProvingEnv := { good_env with verify_output_has_ok := false }

/-! Helper lemmas. -/

theorem char_val_dec_digit_char (d : ℕ) (hd : d < 10) : char_val (dec_digit_char d) = d := by
  interval_cases d <;> decide

theorem char_val_zero_char : char_val '0' = 0 := by decide

theorem ofDigits_replicate_zero (k : ℕ) : Nat.ofDigits 10 (List.replicate k 0) = 0 := by
  induction k with
  | zero => simp [Nat.ofDigits]
  | succ n ih => simp [List.replicate_succ, Nat.ofDigits_cons, ih]

theorem decode_pad6 (n : ℕ) : decode_digits (pad6_chars n) = n := by
  unfold decode_digits pad6_chars
  rw [List.map_append, List.map_replicate, char_val_zero_char]
  have hmap : (dec_repr n).map char_val = (Nat.digits 10 n).reverse := by
    unfold dec_repr
    rw [List.map_reverse, List.map_map]
    congr 1
    have hdig : ∀ d ∈ Nat.digits 10 n, (char_val ∘ dec_digit_char) d = id d := by
      intro d hd
      exact char_val_dec_digit_char d (Nat.digits_lt_base (by norm_num) hd)
    rw [List.map_congr_left hdig, List.map_id]
  rw [hmap, List.reverse_append, List.reverse_reverse, List.reverse_replicate,
    Nat.ofDigits_append, ofDigits_replicate_zero, Nat.ofDigits_digits]
  ring

theorem tx_data_drop (n : ℕ) : (txFormat n).data.drop 3 = pad6_chars n := by
  have h : txFormat n = String.mk (['t', 'x', '-'] ++ pad6_chars n) := rfl
  rw [h]
  exact List.drop_left ['t', 'x', '-'] (pad6_chars n)

theorem decode_txFormat (n : ℕ) : decode_digits ((txFormat n).data.drop 3) = n := by
  rw [tx_data_drop, decode_pad6]

theorem post_to_ledger_ledger_shape (v : Option VCA) (L : List LedgerEntry) (r t : String) :
    (post_to_ledger v L r t).ledger = L ∨
    ∃ e, (post_to_ledger v L r t).ledger = L ++ [e] ∧ e.tx_id = txFormat (L.length + 1) := by
  cases v with
  | none => exact Or.inl rfl
  | some vca =>
    cases h : vca.consent with
    | none => exact Or.inl (by simp only [post_to_ledger, h])
    | some c =>
      simp only [post_to_ledger, h]
      by_cases hd : (check_duplicate L vca.vca_id && !answered_yes r) = true
      · rw [if_pos hd]
        exact Or.inl rfl
      · rw [if_neg hd]
        exact Or.inr ⟨_, rfl, rfl⟩

theorem tx_invariant_append (L : List LedgerEntry) (e : LedgerEntry)
    (hL : tx_invariant L) (he : e.tx_id = txFormat (L.length + 1)) :
    tx_invariant (L ++ [e]) := by
  intro i hi
  rcases Nat.lt_or_ge i L.length with hlt | hge
  · rw [List.get_eq_getElem, List.getElem_append_left hlt]
    exact hL i hlt
  · have hi' : i < L.length + 1 := by simpa using hi
    have heq : i = L.length := Nat.le_antisymm (Nat.lt_succ_iff.mp hi') hge
    subst heq
    rw [List.get_eq_getElem, List.getElem_of_append rfl rfl]
    exact he

theorem run_ledger_ops_invariant (ops : List LedgerOp) : tx_invariant (run_ledger_ops ops) := by
  suffices h : ∀ L, tx_invariant L → tx_invariant (ops.foldl apply_ledger_op L) by
    exact h [] (fun i hi => absurd hi (by simp))
  induction ops with
  | nil => intro L hL; exact hL
  | cons op ops ih =>
    intro L hL
    apply ih
    match op with
    | .batchRollup vs b t => exact hL
    | .post v r t =>
      rcases post_to_ledger_ledger_shape v L r t with h | ⟨e, he, htx⟩
      · simpa only [apply_ledger_op, h] using hL
      · simpa only [apply_ledger_op, he] using tx_invariant_append L e hL htx

theorem roundHalfToEven_intCast (n : ℤ) : roundHalfToEven (n : ℚ) = n := by
  unfold roundHalfToEven
  rw [Int.floor_intCast]
  simp

theorem pyRound_eq_of_int (q : ℚ) (n : ℕ) (m : ℤ) (h : q * 10 ^ n = (m : ℚ)) :
    pyRound q n = (m : ℚ) / 10 ^ n := by
  unfold pyRound
  rw [h, roundHalfToEven_intCast]

theorem pyRound_250_3 : pyRound (250/3) 1 = 833/10 := by
  unfold pyRound roundHalfToEven
  have hf : ⌊(250/3 : ℚ) * 10 ^ 1⌋ = 833 := by
    rw [Int.floor_eq_iff]
    constructor <;> norm_num
  rw [hf]
  norm_num

theorem generate_real_proof_good (c t : ℚ) (i d : String) :
    generate_real_proof good_env c t i d =
      ⟨.ok (create_vca good_env c t i d),
       [.witnessGen (roundHalfToEven (c * 100)) (roundHalfToEven (t * 100)),
        .proveCall, .verifyCall],
       [create_vca good_env c t i d]⟩ := rfl

theorem batch_mint_good_confidences (count : ℕ) (base thr : ℚ) :
    (batch_mint (fun _ => good_env) count base thr).1.map
        (fun v => v.cognitive_state.confidence) =
      (List.range count).map (fun (i : ℕ) => some (base + (i : ℚ) * (1/10))) := by
  suffices h : ∀ (l : List ℕ) (ints : List (String × String)) (acc : List VCA × List ExtCall),
      ((l.foldl (fun acc (i : ℕ) =>
          let confidence := base + (i : ℚ) * (1/10)
          let intent_task := ints.getD i ("", "")
          let out := generate_real_proof good_env confidence thr intent_task.1 intent_task.2
          match out.result with
          | .ok vca => (acc.1 ++ [vca], acc.2 ++ out.calls)
          | .error _ => (acc.1, acc.2 ++ out.calls)) acc).1.map
        (fun v => v.cognitive_state.confidence)) =
      acc.1.map (fun v => v.cognitive_state.confidence) ++
        l.map (fun (i : ℕ) => some (base + (i : ℚ) * (1/10))) by
    simpa [batch_mint] using h (List.range count) (generate_batch_intents count) ([], [])
  intro l
  induction l with
  | nil => intro ints acc; simp
  | cons i l ih =>
    intro ints acc
    rw [List.foldl_cons, ih]
    show (acc.1 ++ [create_vca good_env (base + (i : ℚ) * (1/10)) thr
        (ints.getD i ("", "")).1 (ints.getD i ("", "")).2]).map
        (fun v => v.cognitive_state.confidence) ++
        l.map (fun (i : ℕ) => some (base + (i : ℚ) * (1/10))) = _
    simp [create_vca]

theorem confidences_of_eq (vcas : List VCA) (qs : List ℚ)
    (h : vcas.map (fun v => v.cognitive_state.confidence) = qs.map some) :
    confidences_of vcas = some qs := by
  induction vcas generalizing qs with
  | nil =>
    cases qs with
    | nil => rfl
    | cons q qs => simp at h
  | cons v vs ih =>
    cases qs with
    | nil => simp at h
    | cons q qs =>
      simp only [List.map_cons, List.cons.injEq] at h
      rw [confidences_of, h.1, ih qs h.2]

theorem sha256_empty_object_hex :
    sha256_hex_of_string (json_dumps_sorted (Json.obj [])) =
      "44136fa355b3678a1146ad16f7e8649e94fb4fc21fe77e8310c060f61caaff8a" := by rfl

/-! Claim theorems. -/

/-- Claim C1: for every VCA record that contains no consent record, the
ledger-posting operation fails with `MissingConsent` (exit code 1) and the
ledger is left unchanged — no entry is appended and the ledger file is not
rewritten. -/
theorem c1_missing_consent (vca : VCA) (ledger : List LedgerEntry) (resp now : String)
    (h : vca.consent = none) :
    post_to_ledger (some vca) ledger resp now = ⟨.missingConsent, ledger, false⟩ ∧
    post_exit_code (post_to_ledger (some vca) ledger resp now).result = 1 := by
  refine ⟨?_, ?_⟩ <;> simp only [post_to_ledger, h, post_exit_code]

/-- Witness for C1 at a concrete unconfirmed VCA and the empty ledger. -/
theorem c1_witness :
    post_to_ledger (some sample_vca_unconfirmed) [] "" "t" =
      ⟨.missingConsent, [], false⟩ ∧
    post_exit_code (post_to_ledger (some sample_vca_unconfirmed) [] "" "t").result = 1 :=
  c1_missing_consent sample_vca_unconfirmed [] "" "t" rfl

/-- Claim C2: whenever the proof-verification step reports failure (the
verify command fails or its output lacks `OK`), `generate_real_proof`
raises the hard error (`InvalidProof`, the source's
`RuntimeError("Proof verification failed")`) and no VCA record is created
or persisted, for any confidence, threshold, or other cognitive-state
values. -/
theorem c2_invalid_proof (env : ProvingEnv) (conf thr : ℚ) (intent td : String)
    (h1 : env.witness_gen_js_exists = true) (h2 : env.witness_cmd_ok = true)
    (h3 : env.zkey_exists = true) (h4 : env.prove_cmd_ok = true)
    (h5 : env.vkey_exists = true)
    (h6 : (env.verify_cmd_ok && env.verify_output_has_ok) = false) :
    (generate_real_proof env conf thr intent td).result = .error .invalidProof ∧
    (generate_real_proof env conf thr intent td).persisted = [] := by
  refine ⟨?_, ?_⟩ <;> simp only [generate_real_proof, h1, h2, h3, h4, h5, h6,
    Bool.not_true, Bool.not_false, Bool.false_eq_true, if_false, if_true]

/-- Witness for C2 at a concrete failing-verification environment. -/
theorem c2_witness :
    (generate_real_proof bad_verify_env (943/10) 92 "Example cognitive action" "").result =
      .error .invalidProof ∧
    (generate_real_proof bad_verify_env (943/10) 92 "Example cognitive action" "").persisted =
      [] :=
  c2_invalid_proof bad_verify_env (943/10) 92 "Example cognitive action" "" rfl rfl rfl rfl
    rfl rfl

/-- Claim C3: the VGT reward is a pure deterministic function of
`(status, confidence)`; an `executed` entry earns 10 when
`confidence >= 95`, 5 when `90 <= confidence < 95`, and 3 otherwise, while
every non-executed (vetoed or pending) entry earns 0. -/
theorem c3_reward_function :
    (∀ e1 e2 : LedgerEntry, e1.status = e2.status →
      e1.cognitive_state.confidence = e2.cognitive_state.confidence →
      calculate_vgt_reward e1 = calculate_vgt_reward e2) ∧
    (∀ e : LedgerEntry, e.status = "executed" →
      (95 ≤ e.cognitive_state.confidence.getD 0 → calculate_vgt_reward e = 10) ∧
      (90 ≤ e.cognitive_state.confidence.getD 0 → e.cognitive_state.confidence.getD 0 < 95 →
        calculate_vgt_reward e = 5) ∧
      (e.cognitive_state.confidence.getD 0 < 90 → calculate_vgt_reward e = 3)) ∧
    (∀ e : LedgerEntry, e.status ≠ "executed" → calculate_vgt_reward e = 0) := by
  refine ⟨?_, ?_, ?_⟩
  · intro e1 e2 hs hc
    unfold calculate_vgt_reward
    rw [hs, hc]
  · intro e hs
    unfold calculate_vgt_reward
    rw [if_pos hs]
    refine ⟨fun h95 => by rw [if_pos h95], fun h90 h95 => ?_, fun h90 => ?_⟩
    · rw [if_neg (by linarith), if_pos h90]
    · rw [if_neg (by linarith), if_neg (by linarith)]
  · intro e hs
    unfold calculate_vgt_reward
    rw [if_neg hs]

/-- Witness for C3: an executed entry at confidence 96 earns 10, a vetoed
entry earns 0. -/
theorem c3_witness :
    calculate_vgt_reward sample_entry_exec = 10 ∧
    calculate_vgt_reward sample_entry_veto = 0 :=
  ⟨(c3_reward_function.2.1 sample_entry_exec rfl).1 (by norm_num [sample_entry_exec,
      create_ledger_entry, sample_vca_a]),
   c3_reward_function.2.2 sample_entry_veto (by decide)⟩

/-- Claim C4: for every VCA carrying a consent record, the ledger entry
created from it maps the consent response to `(action, status)`:
an approved response (`y`) yields `(execute, executed)`, a vetoed response
(`n`) yields `(veto, vetoed)`, and any other raw consent value yields
`(unknown, pending)` without crashing; the raw response is recorded as
`human_consent`. -/
theorem c4_consent_mapping (vca : VCA) (c : ConsentRecord) (tx now : String)
    (hc : vca.consent = some c) :
    (c.user_response = "y" →
      (create_ledger_entry vca tx now).action = "execute" ∧
      (create_ledger_entry vca tx now).status = "executed") ∧
    (c.user_response = "n" →
      (create_ledger_entry vca tx now).action = "veto" ∧
      (create_ledger_entry vca tx now).status = "vetoed") ∧
    (c.user_response ≠ "y" → c.user_response ≠ "n" →
      (create_ledger_entry vca tx now).action = "unknown" ∧
      (create_ledger_entry vca tx now).status = "pending") ∧
    (create_ledger_entry vca tx now).human_consent = c.user_response := by
  have hu : ((vca.consent.map (fun x => x.user_response)).getD "unknown") = c.user_response := by
    rw [hc]; rfl
  refine ⟨fun hy => ?_, fun hn => ?_, fun hy hn => ?_, ?_⟩
  · simp only [create_ledger_entry, hu]
    simp [hy]
  · simp only [create_ledger_entry, hu]
    simp [hn]
  · simp only [create_ledger_entry, hu]
    simp [hy, hn]
  · simp only [create_ledger_entry, hu]

/-- Witness for C4 at approved, vetoed and corrupt consent records. -/
theorem c4_witness :
    ((create_ledger_entry sample_vca_a "tx-000001" "t").action = "execute" ∧
     (create_ledger_entry sample_vca_a "tx-000001" "t").status = "executed") ∧
    ((create_ledger_entry sample_vca_b "tx-000002" "t").action = "veto" ∧
     (create_ledger_entry sample_vca_b "tx-000002" "t").status = "vetoed") ∧
    ((create_ledger_entry sample_vca_corrupt "tx-000003" "t").action = "unknown" ∧
     (create_ledger_entry sample_vca_corrupt "tx-000003" "t").status = "pending") :=
  ⟨(c4_consent_mapping sample_vca_a _ "tx-000001" "t" rfl).1 rfl,
   (c4_consent_mapping sample_vca_b _ "tx-000002" "t" rfl).2.1 rfl,
   (c4_consent_mapping sample_vca_corrupt _ "tx-000003" "t" rfl).2.2.1
     (by decide) (by decide)⟩

/-- Claim C5: under serialized appends (any interleaving of individual
posts and batch rollups, where a rollup never touches the ledger file),
each entry's transaction id equals the ledger length before its append
plus one, rendered by the `tx-` plus zero-padded-to-6-digits formatter,
and the transaction ids are pairwise distinct and strictly increasing in
append order. -/
theorem c5_tx_id_assignment (ops : List LedgerOp) (i j : ℕ)
    (hi : i < (run_ledger_ops ops).length) (hj : j < (run_ledger_ops ops).length) :
    ((run_ledger_ops ops).get ⟨i, hi⟩).tx_id = generate_tx_id ((run_ledger_ops ops).take i) ∧
    ((run_ledger_ops ops).get ⟨i, hi⟩).tx_id = txFormat (i + 1) ∧
    (i < j →
      tx_number ((run_ledger_ops ops).get ⟨i, hi⟩) <
        tx_number ((run_ledger_ops ops).get ⟨j, hj⟩) ∧
      ((run_ledger_ops ops).get ⟨i, hi⟩).tx_id ≠
        ((run_ledger_ops ops).get ⟨j, hj⟩).tx_id) := by
  have hinv := run_ledger_ops_invariant ops
  have htxi := hinv i hi
  have htxj := hinv j hj
  have hlen : ((run_ledger_ops ops).take i).length = i := by
    rw [List.length_take]
    exact min_eq_left (le_of_lt hi)
  have hni : tx_number ((run_ledger_ops ops).get ⟨i, hi⟩) = i + 1 := by
    unfold tx_number
    rw [htxi, decode_txFormat]
  have hnj : tx_number ((run_ledger_ops ops).get ⟨j, hj⟩) = j + 1 := by
    unfold tx_number
    rw [htxj, decode_txFormat]
  refine ⟨?_, htxi, ?_⟩
  · rw [htxi]
    unfold generate_tx_id
    rw [hlen]
  · intro hij
    refine ⟨by rw [hni, hnj]; omega, ?_⟩
    intro heq
    have : i + 1 = j + 1 := by
      rw [← hni, ← hnj]
      unfold tx_number
      rw [heq]
    omega

/-- Witness for C5 on a concrete two-post sequence. -/
theorem c5_witness :
    ((run_ledger_ops sample_ops).get ⟨0, by decide⟩).tx_id =
      generate_tx_id ((run_ledger_ops sample_ops).take 0) ∧
    ((run_ledger_ops sample_ops).get ⟨0, by decide⟩).tx_id = txFormat 1 ∧
    (tx_number ((run_ledger_ops sample_ops).get ⟨0, by decide⟩) <
       tx_number ((run_ledger_ops sample_ops).get ⟨1, by decide⟩) ∧
     ((run_ledger_ops sample_ops).get ⟨0, by decide⟩).tx_id ≠
       ((run_ledger_ops sample_ops).get ⟨1, by decide⟩).tx_id) :=
  ⟨(c5_tx_id_assignment sample_ops 0 1 (by decide) (by decide)).1,
   (c5_tx_id_assignment sample_ops 0 1 (by decide) (by decide)).2.1,
   (c5_tx_id_assignment sample_ops 0 1 (by decide) (by decide)).2.2 (by decide)⟩

/-- Claim C6: when a VCA id is already referenced by an existing ledger
entry, posting it again depends on the operator's explicit override
answer: without an affirmative answer the post is cancelled and the ledger
is unchanged (nothing written); with the override a new entry is
appended. -/
theorem c6_duplicate_handling (vca : VCA) (c : ConsentRecord) (ledger : List LedgerEntry)
    (respNo respYes now : String) (hc : vca.consent = some c)
    (hdup : check_duplicate ledger vca.vca_id = true)
    (hno : answered_yes respNo = false) (hyes : answered_yes respYes = true) :
    post_to_ledger (some vca) ledger respNo now = ⟨.cancelledDuplicate, ledger, false⟩ ∧
    ∃ e, post_to_ledger (some vca) ledger respYes now = ⟨.posted e, ledger ++ [e], true⟩ ∧
      (post_to_ledger (some vca) ledger respYes now).ledger.length = ledger.length + 1 := by
  constructor
  · have hcond : (check_duplicate ledger vca.vca_id && !answered_yes respNo) = true := by
      rw [hdup, hno]; rfl
    simp only [post_to_ledger, hc, hcond, if_true]
  · have hcond : (check_duplicate ledger vca.vca_id && !answered_yes respYes) = false := by
      rw [hdup, hyes]; rfl
    simp only [post_to_ledger, hc, hcond, Bool.false_eq_true, if_false]
    exact ⟨_, rfl, by simp⟩

/-- Witness for C6 on a ledger already holding `sample_vca_a`. -/
theorem c6_witness :
    post_to_ledger (some sample_vca_a) sample_dup_ledger "n" "t" =
      ⟨.cancelledDuplicate, sample_dup_ledger, false⟩ ∧
    (post_to_ledger (some sample_vca_a) sample_dup_ledger "y" "t").ledger.length =
      sample_dup_ledger.length + 1 := by
  obtain ⟨h1, e, h2, h3⟩ := c6_duplicate_handling sample_vca_a _ sample_dup_ledger "n" "y" "t"
    rfl (by decide) (by decide) (by decide)
  exact ⟨h1, h3⟩

/-- Claim C7, counterexample to the claim as stated: through the
`batch_mint` path an out-of-range confidence (150) is never rejected —
the VCA is constructed successfully, and the external proving calls
(witness generation with fixed-point 15000, proof generation,
verification) are all made. -/
theorem c7_counterexample :
    (batch_mint (fun _ => good_env) 1 150 92).1.map
        (fun v => v.cognitive_state.confidence) = [some 150] ∧
    ¬((150 : ℚ) ≤ 100) ∧
    (batch_mint (fun _ => good_env) 1 150 92).2 =
      [.witnessGen 15000 9200, .proveCall, .verifyCall] := by
  refine ⟨?_, by norm_num, ?_⟩
  · rw [batch_mint_good_confidences,
      show List.range 1 = [0] from rfl]
    simp only [List.map_cons, List.map_nil]
    norm_num
  · have h2 : (batch_mint (fun _ => good_env) 1 150 92).2 =
        [.witnessGen (roundHalfToEven ((150 + ((0:ℕ) : ℚ) * (1/10)) * 100))
           (roundHalfToEven ((92 : ℚ) * 100)), .proveCall, .verifyCall] := rfl
    rw [h2]
    have harg : (150 + ((0:ℕ) : ℚ) * (1/10)) * 100 = ((15000 : ℤ) : ℚ) := by
      push_cast
      norm_num
    have hthr : (92 : ℚ) * 100 = ((9200 : ℤ) : ℚ) := by norm_num
    rw [harg, hthr, roundHalfToEven_intCast, roundHalfToEven_intCast]

/-- Claim C7, amended: when a confidence or threshold outside `[0, 100]`
is supplied to the `enhanced_generate_proof` CLI entry point, the run
fails with `InvalidRange` (exit code 1) before any external proving call
is made; the `batch_mint` path performs no such validation. -/
theorem c7_amended_cli_range_check (env : ProvingEnv) (confidence threshold : ℚ)
    (intent td : String)
    (h : ¬(0 ≤ confidence ∧ confidence ≤ 100) ∨ ¬(0 ≤ threshold ∧ threshold ≤ 100)) :
    (enhanced_main env confidence threshold intent td).calls = [] ∧
    (enhanced_main env confidence threshold intent td).code = 1 ∧
    ((enhanced_main env confidence threshold intent td).result =
        .error .invalidRangeConfidence ∨
     (enhanced_main env confidence threshold intent td).result =
        .error .invalidRangeThreshold) := by
  by_cases hc : 0 ≤ confidence ∧ confidence ≤ 100
  · have ht : ¬(0 ≤ threshold ∧ threshold ≤ 100) := by tauto
    unfold enhanced_main
    rw [if_neg (not_not_intro hc), if_pos ht]
    exact ⟨rfl, rfl, Or.inr rfl⟩
  · unfold enhanced_main
    rw [if_pos hc]
    exact ⟨rfl, rfl, Or.inl rfl⟩

/-- Witness for the amended C7 at confidence 150. -/
theorem c7_witness :
    (enhanced_main good_env 150 92 "Example cognitive action" "").calls = [] ∧
    (enhanced_main good_env 150 92 "Example cognitive action" "").code = 1 ∧
    ((enhanced_main good_env 150 92 "Example cognitive action" "").result =
        .error .invalidRangeConfidence ∨
     (enhanced_main good_env 150 92 "Example cognitive action" "").result =
        .error .invalidRangeThreshold) :=
  c7_amended_cli_range_check good_env 150 92 "Example cognitive action" ""
    (Or.inl (by norm_num))

/-- Claim C8, counterexample to the claim as stated: for `n = 10` the
reported `savings_percent` is `83.3` (the closed-form value rounded to one
decimal) while the closed-form value
`savings / individualCost * 100` is `250/3 = 83.333...`, and the two
differ. -/
theorem c8_counterexample :
    (simulate_gas_savings 10).map (fun g => g.savings_percent) = some (833/10) ∧
    ((1500000 : ℚ) - 250000) / 1500000 * 100 = 250/3 ∧
    (833/10 : ℚ) ≠ 250/3 := by
  refine ⟨?_, by norm_num, by norm_num⟩
  unfold simulate_gas_savings
  rw [if_neg (by norm_num)]
  simp only [Option.map_some']
  rw [Option.some_inj]
  have harg : (((150000 * ((10:ℕ):ℤ) - (50000 + 20000 * ((10:ℕ):ℤ))) : ℤ) : ℚ) /
      (((150000 * ((10:ℕ):ℤ)) : ℤ) : ℚ) * 100 = 250/3 := by
    push_cast
    norm_num
  rw [harg, pyRound_250_3]

/-- Claim C8, amended: for the batch of 10 VCAs with confidences
`94.0 .. 94.9`, the rollup entry's average confidence is exactly `94.45`,
and the gas report is `individualCost = 1500000`, `batchCost = 250000`,
`savings = 1250000`, with the reported `savings_percent` equal to the
closed-form value `savings / individualCost * 100` rounded to one decimal
digit, `83.3`. -/
theorem c8_amended_batch_scenario :
    ((create_rollup_entry (batch_mint (fun _ => good_env) 10 94 92).1
        "batch-1700000000" "t").map (fun e => e.total_confidence_avg)) = some (9445/100) ∧
    ((create_rollup_entry (batch_mint (fun _ => good_env) 10 94 92).1
        "batch-1700000000" "t").map (fun e => e.vca_count)) = some 10 ∧
    simulate_gas_savings 10 =
      some { individual_cost := 1500000, batch_cost := 250000, savings := 1250000,
             savings_percent := 833/10 } ∧
    (833 : ℚ)/10 = pyRound ((1250000 : ℚ) / 1500000 * 100) 1 := by
  have hmap := batch_mint_good_confidences 10 94 92
  rw [show List.range 10 = [0,1,2,3,4,5,6,7,8,9] from rfl] at hmap
  simp only [List.map_cons, List.map_nil] at hmap
  have hconfs : confidences_of (batch_mint (fun _ => good_env) 10 94 92).1 =
      some [94 + ((0:ℕ):ℚ) * (1/10), 94 + ((1:ℕ):ℚ) * (1/10), 94 + ((2:ℕ):ℚ) * (1/10),
            94 + ((3:ℕ):ℚ) * (1/10), 94 + ((4:ℕ):ℚ) * (1/10), 94 + ((5:ℕ):ℚ) * (1/10),
            94 + ((6:ℕ):ℚ) * (1/10), 94 + ((7:ℕ):ℚ) * (1/10), 94 + ((8:ℕ):ℚ) * (1/10),
            94 + ((9:ℕ):ℚ) * (1/10)] := by
    apply confidences_of_eq
    rw [hmap]
    rfl
  have hlen : (batch_mint (fun _ => good_env) 10 94 92).1.length = 10 := by
    have := congrArg List.length hmap
    simpa using this
  refine ⟨?_, ?_, ?_, ?_⟩
  · simp only [create_rollup_entry, hconfs, hlen]
    rw [if_neg (by norm_num)]
    simp only [Option.map_some']
    rw [Option.some_inj]
    have hsum : ([94 + ((0:ℕ):ℚ) * (1/10), 94 + ((1:ℕ):ℚ) * (1/10), 94 + ((2:ℕ):ℚ) * (1/10),
        94 + ((3:ℕ):ℚ) * (1/10), 94 + ((4:ℕ):ℚ) * (1/10), 94 + ((5:ℕ):ℚ) * (1/10),
        94 + ((6:ℕ):ℚ) * (1/10), 94 + ((7:ℕ):ℚ) * (1/10), 94 + ((8:ℕ):ℚ) * (1/10),
        94 + ((9:ℕ):ℚ) * (1/10)].sum) / ((10:ℕ):ℚ) * 10 ^ 2 = ((9445 : ℤ) : ℚ) := by
      simp only [List.sum_cons, List.sum_nil]
      push_cast
      norm_num
    rw [pyRound_eq_of_int _ _ 9445 hsum]
    norm_num
  · simp only [create_rollup_entry, hconfs, hlen]
    rw [if_neg (by norm_num)]
    rfl
  · unfold simulate_gas_savings
    rw [if_neg (by norm_num)]
    rw [Option.some_inj, GasReport.mk.injEq]
    refine ⟨?_, ?_, ?_, ?_⟩
    · norm_num
    · norm_num
    · norm_num
    · have harg : ((150000 * ((10:ℕ):ℤ) - (50000 + 20000 * ((10:ℕ):ℤ)) : ℤ) : ℚ) /
          ((150000 * ((10:ℕ):ℤ) : ℤ) : ℚ) * 100 = 250/3 := by
        push_cast
        norm_num
      rw [harg, pyRound_250_3]
  · have hform : (1250000 : ℚ) / 1500000 * 100 = 250/3 := by norm_num
    rw [hform, pyRound_250_3]

/-- Claim C9: ledger posting never re-checks proof verification — for
every consented, not-yet-posted VCA the post succeeds (exit code 0)
whatever the proof object or its verified flag; a missing `zkp` (or a
`zkp` without a `proof` key) yields a `proof_hash` equal to the SHA-256
digest of the canonical empty JSON object, and the entry's metadata
records the verified flag, defaulting to `false`. -/
theorem c9_posting_ignores_verification (vca : VCA) (c : ConsentRecord)
    (ledger : List LedgerEntry) (resp now : String)
    (hc : vca.consent = some c) (hdup : check_duplicate ledger vca.vca_id = false) :
    ∃ e, post_to_ledger (some vca) ledger resp now = ⟨.posted e, ledger ++ [e], true⟩ ∧
      post_exit_code (post_to_ledger (some vca) ledger resp now).result = 0 ∧
      e.meta_verified = ((vca.zkp.bind (fun z => z.verified)).getD false) ∧
      (vca.zkp = none →
        e.proof_hash = sha256_hex_of_string (json_dumps_sorted (Json.obj [])) ∧
        e.proof_hash = "44136fa355b3678a1146ad16f7e8649e94fb4fc21fe77e8310c060f61caaff8a") ∧
      (∀ z, vca.zkp = some z → z.proof = none →
        e.proof_hash = sha256_hex_of_string (json_dumps_sorted (Json.obj []))) := by
  have hcond : (check_duplicate ledger vca.vca_id && !answered_yes resp) = false := by
    rw [hdup]; rfl
  simp only [post_to_ledger, hc, hcond, Bool.false_eq_true, if_false]
  refine ⟨_, rfl, rfl, rfl, fun hz => ?_, fun z hz hp => ?_⟩
  · constructor
    · show compute_proof_hash vca = _
      simp [compute_proof_hash, hz]
    · show compute_proof_hash vca = _
      simp [compute_proof_hash, hz, sha256_empty_object_hex]
  · show compute_proof_hash vca = _
    simp [compute_proof_hash, hz, hp]

/-- Witness for C9: posting a consented VCA without any proof object
rewrites the ledger and exits 0. -/
theorem c9_witness :
    (post_to_ledger (some sample_vca_a) [] "" "t").saved = true ∧
    post_exit_code (post_to_ledger (some sample_vca_a) [] "" "t").result = 0 := by
  obtain ⟨e, hpost, hcode, _⟩ :=
    c9_posting_ignores_verification sample_vca_a _ [] "" "t" rfl rfl
  exact ⟨by rw [hpost], hcode⟩

/-- Claim C10: an executed entry whose cognitive-state snapshot lacks a
confidence key defaults to confidence 0 and earns reward 3; consequently
every executed entry earns at least 3 and never 0. -/
theorem c10_executed_reward_positive (e : LedgerEntry) (h : e.status = "executed") :
    (e.cognitive_state.confidence = none → calculate_vgt_reward e = 3) ∧
    3 ≤ calculate_vgt_reward e ∧ calculate_vgt_reward e ≠ 0 := by
  unfold calculate_vgt_reward
  rw [if_pos h]
  refine ⟨fun hn => ?_, ?_, ?_⟩
  · rw [hn]
    norm_num
  · dsimp only
    split_ifs <;> norm_num
  · dsimp only
    split_ifs <;> norm_num

/-- Witness for C10 at a concrete executed entry lacking a confidence. -/
theorem c10_witness :
    calculate_vgt_reward sample_entry_noconf = 3 ∧
    calculate_vgt_reward sample_entry_noconf ≠ 0 := by
  obtain ⟨h3, hge, hne⟩ := c10_executed_reward_positive sample_entry_noconf rfl
  exact ⟨h3 rfl, hne⟩

end Vanguard
